import Mathlib

/-!
# Verification of the scholarship-scraper pipeline

A shallow embedding of the job orchestration and scraping pipeline:
the scholarship fingerprint (`generateScholarshipId` in
`src/scrapers/base-scraper.ts`), the duplicate check and persistence loop
(`checkDuplicate`, `saveScholarship`, `processScholarships`), the text and
amount normalisation helpers (`src/utils/helper.ts`), the retry/backoff
executor (`withRetry`), and the job-orchestrator Lambda handler
(`src/lambda/job-orchestrator/index.ts`).

JavaScript strings are modelled as Lean `String`/`List Char`; JavaScript
numbers as `ℚ` extended with `NaN`/`±Infinity` where the code can produce
them; `undefined`-able fields as `Option`; thrown errors as `Except`.
-/

set_option maxRecDepth 4000

namespace ScholarshipScraper

/-! ## JavaScript character and string primitives -/

/-- JavaScript `\s` / `String.prototype.trim` whitespace (the code points the
scraper's inputs can realistically carry). -/
def jsWhitespace (c : Char) : Bool :=
  c.toNat = 9 || c.toNat = 10 || c.toNat = 11 || c.toNat = 12 || c.toNat = 13 ||
  c.toNat = 32 || c.toNat = 160 || c.toNat = 0x2028 || c.toNat = 0x2029 || c.toNat = 0xFEFF

/-- `String.prototype.trim()` on a character list. -/
def jsTrimList (cs : List Char) : List Char :=
  ((cs.dropWhile jsWhitespace).reverse.dropWhile jsWhitespace).reverse

/-- `String.prototype.trim()`. -/
def jsTrim (s : String) : String :=
  ⟨jsTrimList s.data⟩

/-- JavaScript `\w` word characters (ASCII letters, digits, underscore). -/
def jsWordChar (c : Char) : Bool :=
  ('a' ≤ c && c ≤ 'z') || ('A' ≤ c && c ≤ 'Z') || ('0' ≤ c && c ≤ '9') || c = '_'

/-- ASCII lower-casing, as `String.prototype.toLowerCase()` acts on the
ASCII range. -/
def jsToLowerList (cs : List Char) : List Char :=
  cs.map Char.toLower

/-- `===`-style substring containment: `haystack.includes(needle)`. -/
def listContainsSub (needle hay : List Char) : Bool :=
  (List.range (hay.length + 1)).any (fun i => needle.isPrefixOf (hay.drop i))

/-- `a.includes(b)` on strings. -/
def jsIncludes (hay needle : String) : Bool :=
  listContainsSub needle.data hay.data

/-- Template-literal interpolation of a possibly-`undefined` value:
`` `${x}` `` prints the string itself, or the literal text `undefined`. -/
def tsInterp (o : Option String) : String :=
  o.getD "undefined"

/-- `x || dflt` on JavaScript strings (empty string is falsy). -/
def jsOrString (o : Option String) (dflt : String) : String :=
  match o with
  | none => dflt
  | some s => if s = "" then dflt else s

/-- `x || dflt` on JavaScript booleans. -/
def jsOrBool (o : Option Bool) (dflt : Bool) : Bool :=
  match o with
  | none => dflt
  | some b => if b then b else dflt

/-- `x || dflt` on JavaScript numbers (`0` is falsy; `NaN` does not appear in
the record fields modelled here). -/
def jsOrNum (o : Option ℚ) (dflt : ℚ) : ℚ :=
  match o with
  | none => dflt
  | some q => if q = 0 then dflt else q

/-! ## UTF-8 and MD5

`generateScholarshipId` calls Node's `createHash('md5').update(content)`
(UTF-8 encoding of the content string) `.digest('hex')`.  MD5 is embedded
over byte lists with 32-bit words as `Nat` values reduced `% 2^32`. -/

/-- UTF-8 encoding of one Unicode scalar value. -/
def utf8EncodeChar (n : Nat) : List Nat :=
  if n < 0x80 then [n]
  else if n < 0x800 then [0xC0 + n / 64, 0x80 + n % 64]
  else if n < 0x10000 then [0xE0 + n / 4096, 0x80 + n / 64 % 64, 0x80 + n % 64]
  else [0xF0 + n / 262144, 0x80 + n / 4096 % 64, 0x80 + n / 64 % 64, 0x80 + n % 64]

/-- UTF-8 bytes of a string. -/
def utf8Encode (s : String) : List Nat :=
  s.data.flatMap (fun c => utf8EncodeChar c.toNat)

namespace MD5

/-- 32-bit truncation. -/
def w32 (n : Nat) : Nat := n % 2 ^ 32

/-- 32-bit bitwise complement. -/
def bnot32 (n : Nat) : Nat := (2 ^ 32 - 1) ^^^ w32 n

/-- 32-bit left-rotation. -/
def rotl (x c : Nat) : Nat :=
  w32 ((w32 x <<< c) ||| (w32 x >>> (32 - c)))

/-- Per-round shift amounts. -/
def shifts : List Nat :=
  [7, 12, 17, 22, 7, 12, 17, 22, 7, 12, 17, 22, 7, 12, 17, 22,
   5, 9, 14, 20, 5, 9, 14, 20, 5, 9, 14, 20, 5, 9, 14, 20,
   4, 11, 16, 23, 4, 11, 16, 23, 4, 11, 16, 23, 4, 11, 16, 23,
   6, 10, 15, 21, 6, 10, 15, 21, 6, 10, 15, 21, 6, 10, 15, 21]

/-- Sine-derived round constants. -/
def consts : List Nat :=
  [0xd76aa478, 0xe8c7b756, 0x242070db, 0xc1bdceee,
   0xf57c0faf, 0x4787c62a, 0xa8304613, 0xfd469501,
   0x698098d8, 0x8b44f7af, 0xffff5bb1, 0x895cd7be,
   0x6b901122, 0xfd987193, 0xa679438e, 0x49b40821,
   0xf61e2562, 0xc040b340, 0x265e5a51, 0xe9b6c7aa,
   0xd62f105d, 0x02441453, 0xd8a1e681, 0xe7d3fbc8,
   0x21e1cde6, 0xc33707d6, 0xf4d50d87, 0x455a14ed,
   0xa9e3e905, 0xfcefa3f8, 0x676f02d9, 0x8d2a4c8a,
   0xfffa3942, 0x8771f681, 0x6d9d6122, 0xfde5380c,
   0xa4beea44, 0x4bdecfa9, 0xf6bb4b60, 0xbebfbc70,
   0x289b7ec6, 0xeaa127fa, 0xd4ef3085, 0x04881d05,
   0xd9d4d039, 0xe6db99e5, 0x1fa27cf8, 0xc4ac5665,
   0xf4292244, 0x432aff97, 0xab9423a7, 0xfc93a039,
   0x655b59c3, 0x8f0ccc92, 0xffeff47d, 0x85845dd1,
   0x6fa87e4f, 0xfe2ce6e0, 0xa3014314, 0x4e0811a1,
   0xf7537e82, 0xbd3af235, 0x2ad7d2bb, 0xeb86d391]

/-- Merkle–Damgård padding: append `0x80`, zero-fill to 56 mod 64, then the
original bit length as 8 little-endian bytes. -/
def pad (msg : List Nat) : List Nat :=
  let len := msg.length
  let zeros := (56 + 64 - (len + 1) % 64) % 64
  msg ++ [0x80] ++ List.replicate zeros 0 ++
    (List.range 8).map (fun i => ((len * 8) >>> (8 * i)) % 256)

/-- Split a byte list into 64-byte chunks.  The fuel starts at the list
length and every step consumes 64 > 0 elements, so it never runs out. -/
def chunks64Go : Nat → List Nat → List (List Nat)
  | 0, _ => []
  | _ + 1, [] => []
  | fuel + 1, b :: bs => ((b :: bs).take 64) :: chunks64Go fuel ((b :: bs).drop 64)

/-- Split a byte list into 64-byte chunks. -/
def chunks64 (l : List Nat) : List (List Nat) :=
  chunks64Go l.length l

/-- The sixteen 32-bit little-endian message words of one chunk. -/
def words (chunk : List Nat) : List Nat :=
  (List.range 16).map (fun j =>
    chunk.getD (4 * j) 0 + chunk.getD (4 * j + 1) 0 * 256 +
    chunk.getD (4 * j + 2) 0 * 65536 + chunk.getD (4 * j + 3) 0 * 16777216)

/-- One of the 64 round steps applied to the running state `(a, b, c, d)`. -/
def step (m : List Nat) (st : Nat × Nat × Nat × Nat) (i : Nat) :
    Nat × Nat × Nat × Nat :=
  let (a, b, c, d) := st
  let (f, g) :=
    if i < 16 then ((b &&& c) ||| (bnot32 b &&& d), i)
    else if i < 32 then ((d &&& b) ||| (bnot32 d &&& c), (5 * i + 1) % 16)
    else if i < 48 then (b ^^^ c ^^^ d, (3 * i + 5) % 16)
    else (c ^^^ (b ||| bnot32 d), (7 * i) % 16)
  let rotated := rotl (a + f + consts.getD i 0 + m.getD g 0) (shifts.getD i 0)
  (d, w32 (b + rotated), b, c)

/-- Process one 64-byte chunk. -/
def processChunk (st : Nat × Nat × Nat × Nat) (chunk : List Nat) :
    Nat × Nat × Nat × Nat :=
  let (a0, b0, c0, d0) := st
  let (a, b, c, d) := (List.range 64).foldl (step (words chunk)) (a0, b0, c0, d0)
  (w32 (a0 + a), w32 (b0 + b), w32 (c0 + c), w32 (d0 + d))

/-- Lower-case hex digit. -/
def hexDigit (n : Nat) : Char :=
  if n < 10 then Char.ofNat (48 + n) else Char.ofNat (87 + n)

/-- A 32-bit word as 8 hex characters, little-endian byte order as in
`digest('hex')`. -/
def wordHex (n : Nat) : List Char :=
  (List.range 4).flatMap (fun i =>
    let byte := n >>> (8 * i) % 256
    [hexDigit (byte / 16), hexDigit (byte % 16)])

/-- MD5 of a byte list, as the lower-case hex string Node's
`digest('hex')` produces. -/
def md5Hex (msg : List Nat) : String :=
  let (a, b, c, d) :=
    (chunks64 (pad msg)).foldl processChunk
      (0x67452301, 0xefcdab89, 0x98badcfe, 0x10325476)
  ⟨wordHex a ++ wordHex b ++ wordHex c ++ wordHex d⟩

end MD5

/-! ## `src/utils/helper.ts` — text and amount normalisation -/

/-- `ensureNonEmptyString(value, defaultValue)`:
`value && value.trim() !== '' ? value.trim() : defaultValue`.
`value` is `string | undefined | null`; `undefined`, `null` and `''` are falsy. -/
def ensureNonEmptyString (value : Option String) (defaultValue : String) : String :=
  match value with
  | none => defaultValue
  | some v => if v ≠ "" ∧ jsTrim v ≠ "" then jsTrim v else defaultValue

/-- The currency-symbol character class of `cleanAmount`/`cleanText`. -/
def currencySymbols : List Char :=
  ['$', '£', '€', '¥', '₹', '₽', '₩', '₪', '₦', '₨', '₫', '₱', '₲', '₴',
   '₵', '₸', '₺', '₻', '₼', '₾', '₿']

/-- The prose words removed by `cleanAmount`'s
`\b(amount|varies|not specified|tbd|to be determined)\b` alternation,
in the regex's left-to-right order (lower-case; matching is
case-insensitive). -/
def proseWords : List (List Char) :=
  ["amount".data, "varies".data, "not specified".data,
   "tbd".data, "to be determined".data]

/-- Case-insensitive prefix match of a (lower-case) pattern, returning the
remaining input. -/
def matchCI : List Char → List Char → Option (List Char)
  | [], cs => some cs
  | _ :: _, [] => none
  | p :: ps, c :: cs => if c.toLower = p then matchCI ps cs else none

/-- Try the alternation's phrases in order at the current position; a phrase
matches only if the character after it is a word boundary (`\b`). -/
def tryProseWords : List (List Char) → List Char → Option (List Char)
  | [], _ => none
  | p :: ps, cs =>
    match matchCI p cs with
    | some rest =>
      match rest with
      | [] => some rest
      | r :: _ => if jsWordChar r then tryProseWords ps cs else some rest
    | none => tryProseWords ps cs

/-- Global replacement of the prose-word alternation by the empty string.
`atBoundary` records whether a `\b` holds before the current position (the
previous character of the original string is absent or a non-word
character).  Each phrase ends in a letter, so after a removal the next
position is not at a boundary.  The fuel starts at the input length and each
step consumes at least one character, so it never runs out. -/
def stripProseWordsGo : Nat → Bool → List Char → List Char
  | 0, _, cs => cs
  | _ + 1, _, [] => []
  | fuel + 1, atBoundary, c :: cs =>
    if atBoundary then
      match tryProseWords proseWords (c :: cs) with
      | some rest => stripProseWordsGo fuel false rest
      | none => c :: stripProseWordsGo fuel (!jsWordChar c) cs
    else c :: stripProseWordsGo fuel (!jsWordChar c) cs

/-- `cleaned.replace(/\b(amount|varies|not specified|tbd|to be determined)\b/gi, '')`. -/
def stripProseWords (cs : List Char) : List Char :=
  stripProseWordsGo cs.length true cs

/-- Collapse runs of spaces to a single space (after whitespace has been
mapped to spaces this is `replace(/\s+/g, ' ')`). -/
def squeezeSpaces : List Char → List Char
  | [] => []
  | a :: rest =>
    match rest with
    | [] => [a]
    | b :: _ =>
      if a = ' ' ∧ b = ' ' then squeezeSpaces rest else a :: squeezeSpaces rest

/-- `cleanAmount(text)` from `src/utils/helper.ts` (lines 229–250): strip
currency symbols, commas and quotes, remove the prose words, collapse
whitespace, trim.  A falsy (empty) input returns `''`. -/
def cleanAmount (text : String) : String :=
  if text = "" then ""
  else
    let cs := text.data.filter (fun c => !currencySymbols.contains c)
    let cs := cs.filter (fun c => c ≠ ',')
    let cs := cs.filter (fun c => c ≠ '\'' ∧ c ≠ '"')
    let cs := stripProseWords cs
    let cs := squeezeSpaces (cs.map (fun c => if jsWhitespace c then ' ' else c))
    ⟨jsTrimList cs⟩

/-! ## `src/utils/helper.ts` — error classification, backoff, retry

A thrown JavaScript value is `Option String`: `some msg` is an `Error`
instance carrying `msg`, `none` is a non-`Error` value (for which the
`instanceof Error` guard in both classifiers fails). -/

/-- `isTimeoutError(error)` (helper.ts lines 257–265). -/
def isTimeoutError (error : Option String) : Bool :=
  match error with
  | none => false
  | some msg =>
    let m : String := ⟨jsToLowerList msg.data⟩
    jsIncludes m "timeout" || jsIncludes m "timed out" ||
    jsIncludes m "model has timed out" || jsIncludes m "request timeout"

/-- `isThrottlingError(error)` (helper.ts lines 272–279). -/
def isThrottlingError (error : Option String) : Bool :=
  match error with
  | none => false
  | some msg =>
    let m : String := ⟨jsToLowerList msg.data⟩
    jsIncludes m "throttlingexception" || jsIncludes m "too many requests" ||
    jsIncludes m "rate exceeded"

/-- The backoff delay in milliseconds computed by `withRetry` when `retries`
attempts remain (helper.ts lines 69–79).  `Math.pow(2, 4 - retries)` is a
JavaScript float and becomes fractional once `retries > 4`, so the delay is
a rational. -/
def backoffDelay (retries : Nat) (error : Option String) : ℚ :=
  if isThrottlingError error then 2 ^ (4 - (retries : ℤ)) * 1000
  else if isTimeoutError error then 2 ^ (5 - (retries : ℤ)) * 1000
  else 2000

/-- `withRetry(operation, retries)` (helper.ts lines 58–86).  The operation
is a trace `op` giving the outcome of its `k`-th invocation (0-based); the
result is paired with the number of invocations actually made.  A success
returns immediately; a failure with `retries > 0` sleeps for
`backoffDelay` and recurses with `retries - 1`; a failure with
`retries = 0` rethrows the last error. -/
def withRetryFrom {α : Type} (op : Nat → Except (Option String) α) :
    Nat → Nat → Except (Option String) α × Nat
  | k, retries =>
    match op k with
    | .ok a => (.ok a, 1)
    | .error e =>
      match retries with
      | 0 => (.error e, 1)
      | r + 1 =>
        let (res, n) := withRetryFrom op (k + 1) r
        (res, n + 1)

/-- `withRetry` started at the first invocation. -/
def withRetry {α : Type} (op : Nat → Except (Option String) α) (retries : Nat) :
    Except (Option String) α × Nat :=
  withRetryFrom op 0 retries

/-! ## JavaScript numbers and `parseFloat` -/

/-- A JavaScript number as produced by `parseFloat`: a finite rational,
an infinity, or `NaN`. -/
inductive JsNumber : Type
  | nan : JsNumber
  | posInf : JsNumber
  | negInf : JsNumber
  | num : ℚ → JsNumber
deriving DecidableEq

/-- `x || 0`: `NaN` (and `0` itself) are falsy and give `0`. -/
def jsNumOrZero : JsNumber → JsNumber
  | .nan => .num 0
  | x => x

/-- Non-negativity of a JavaScript number (`NaN` is not non-negative). -/
def JsNumber.isNonneg : JsNumber → Bool
  | .nan => false
  | .posInf => true
  | .negInf => false
  | .num q => decide (0 ≤ q)

def isAsciiDigit (c : Char) : Bool := '0' ≤ c && c ≤ '9'

def digitsToNat (ds : List Char) : Nat :=
  ds.foldl (fun acc c => acc * 10 + (c.toNat - 48)) 0

/-- An optional leading `-`/`+` sign: whether the value is negated, and the
remaining input. -/
def parseSign (cs : List Char) : Bool × List Char :=
  match cs with
  | [] => (false, [])
  | c :: r => if c = '-' then (true, r) else if c = '+' then (false, r) else (false, c :: r)

/-- The optional `ExponentPart` of a `StrDecimalLiteral`; an `e`/`E` not
followed by digits contributes no exponent. -/
def parseExponent (cs : List Char) : ℤ :=
  let (neg, cs1) := parseSign cs
  let ds := cs1.takeWhile isAsciiDigit
  if ds = [] then 0
  else if neg then -(digitsToNat ds : ℤ) else (digitsToNat ds : ℤ)

/-- The optional fraction `. DecimalDigits?`: the fraction digits and the
remaining input. -/
def fracPart (rest : List Char) : List Char × List Char :=
  match rest with
  | [] => ([], [])
  | c :: r =>
    if c = '.' then (r.takeWhile isAsciiDigit, r.dropWhile isAsciiDigit)
    else ([], c :: r)

/-- The exponent contributed by the input following the digits. -/
def expPart : List Char → ℤ
  | [] => 0
  | c :: r => if c = 'e' ∨ c = 'E' then parseExponent r else 0

/-- The unsigned decimal part of a `StrDecimalLiteral`: digits, an optional
fraction, an optional exponent; `none` when no digit is present. -/
def parseDecimal (cs : List Char) : Option ℚ :=
  let intD := cs.takeWhile isAsciiDigit
  let fr := fracPart (cs.dropWhile isAsciiDigit)
  if intD = [] ∧ fr.1 = [] then none
  else
    some (((digitsToNat intD : ℚ) + (digitsToNat fr.1 : ℚ) / 10 ^ fr.1.length) *
      10 ^ expPart fr.2)

/-- `parseFloat(s)`: skip leading whitespace, an optional sign, then the
longest `Infinity` or decimal-literal prefix; `NaN` when none parses. -/
def jsParseFloat (s : String) : JsNumber :=
  let (neg, cs1) := parseSign (s.data.dropWhile jsWhitespace)
  if "Infinity".data.isPrefixOf cs1 then (if neg then .negInf else .posInf)
  else
    match parseDecimal cs1 with
    | none => .nan
    | some q => .num (if neg then -q else q)

/-- The award-amount pipeline at the discovery-extraction call site:
`parseFloat(ScholarshipUtils.cleanAmount(amountText)) || 0`. -/
def parsedAwardAmount (s : String) : JsNumber :=
  jsNumOrZero (jsParseFloat (cleanAmount s))

/-- The full call-site expression
`parseFloat(ScholarshipUtils.cleanAmount(extractedData.amount || '0')) || 0`. -/
def extractAward (amount : Option String) : JsNumber :=
  parsedAwardAmount (jsOrString amount "0")

/-- Whether the cleaned text begins (after whitespace) with a minus sign —
the only way `parseFloat` can return a negative value. -/
def startsWithMinus (s : String) : Bool :=
  match s.data.dropWhile jsWhitespace with
  | [] => false
  | c :: _ => c = '-'

/-! ## `src/utils/types.ts` — the `Scholarship` record -/

/-- The canonical `Scholarship` interface. -/
structure Scholarship where
  id : String
  name : String
  deadline : String
  url : String
  description : String
  eligibility : String
  organization : String
  academicLevel : String
  geographicRestrictions : String
  targetType : String
  ethnicity : String
  gender : String
  minAward : ℚ
  maxAward : ℚ
  renewable : Bool
  country : String
  applyUrl : String
  isActive : Bool
  essayRequired : Bool
  recommendationsRequired : Bool
  createdAt : String
  updatedAt : String
  source : String
  jobId : String
deriving DecidableEq

/-- `Partial<Scholarship>` — every field possibly `undefined`. -/
structure PartialScholarship where
  id : Option String := none
  name : Option String := none
  deadline : Option String := none
  url : Option String := none
  description : Option String := none
  eligibility : Option String := none
  organization : Option String := none
  academicLevel : Option String := none
  geographicRestrictions : Option String := none
  targetType : Option String := none
  ethnicity : Option String := none
  gender : Option String := none
  minAward : Option ℚ := none
  maxAward : Option ℚ := none
  renewable : Option Bool := none
  country : Option String := none
  applyUrl : Option String := none
  isActive : Option Bool := none
  essayRequired : Option Bool := none
  recommendationsRequired : Option Bool := none
  createdAt : Option String := none
  updatedAt : Option String := none
  source : Option String := none
  jobId : Option String := none
deriving DecidableEq

/-! ## `src/scrapers/base-scraper.ts` -/

/-- `generateScholarshipId(scholarship)` (base-scraper.ts lines 96–100):
the MD5 hex digest of `` `${name}-${organization}-${deadline}` ``
(an `undefined` field interpolates as the text `undefined`). -/
def generateScholarshipId (s : PartialScholarship) : String :=
  let content :=
    tsInterp s.name ++ "-" ++ tsInterp s.organization ++ "-" ++ tsInterp s.deadline
  MD5.md5Hex (utf8Encode content)

/-- The scholarships table, keyed by the composite `(id, deadline)` used by
both `GetCommand` and `PutCommand`. -/
abbrev StoreKey := String × String

abbrev Store := List (StoreKey × Scholarship)

def storeLookup (st : Store) (k : StoreKey) : Option Scholarship :=
  match st with
  | [] => none
  | e :: rest => if e.1 = k then some e.2 else storeLookup rest k

/-- `PutCommand` semantics: overwrite the item at the key, or add it. -/
def storePut (st : Store) (k : StoreKey) (v : Scholarship) : Store :=
  match st with
  | [] => [(k, v)]
  | e :: rest => if e.1 = k then (k, v) :: rest else e :: storePut rest k v

/-- Fault injection for the DynamoDB calls a run makes: whether the `i`-th
`GetCommand` / `PutCommand` of the run throws. -/
structure DbBehavior where
  getFails : Nat → Bool
  putFails : Nat → Bool

/-- A store whose reads and writes all succeed. -/
def dbReliable : DbBehavior := ⟨fun _ => false, fun _ => false⟩

/-- A store whose reads all throw and whose writes succeed. -/
def dbGetFailing : DbBehavior := ⟨fun _ => true, fun _ => false⟩

/-- `checkDuplicate(scholarship)` (base-scraper.ts lines 102–117): a
`GetCommand` on `(scholarship.id, scholarship.deadline)`; a thrown read
error is caught and reported as `false` ("not a duplicate"). -/
def checkDuplicate (getFailed : Bool) (st : Store) (sch : Scholarship) : Bool :=
  if getFailed then false
  else (storeLookup st (sch.id, sch.deadline)).isSome

/-- The item `saveScholarship` writes: `createdAt := scholarship.createdAt
|| now`, `updatedAt := now`, `jobId := this.jobId` (lines 121–127). -/
def putItem (now jobId : String) (sch : Scholarship) : Scholarship :=
  { sch with
    createdAt := if sch.createdAt = "" then now else sch.createdAt
    updatedAt := now
    jobId := jobId }

/-- `saveScholarship(scholarship)` (base-scraper.ts lines 119–139): a
`PutCommand`; a thrown write error is caught and reported as `false`. -/
def saveScholarship (putFailed : Bool) (now jobId : String) (st : Store)
    (sch : Scholarship) : Store × Bool :=
  if putFailed then (st, false)
  else (storePut st (sch.id, sch.deadline) (putItem now jobId sch), true)

/-- The normalisation performed inline by `processScholarships`
(base-scraper.ts lines 264–289) to build `fullScholarship` from a partial
candidate.  The adapter-supplied `id` does not occur on the right-hand side:
the stored `id` is always `generateScholarshipId`.  All `new Date()`
timestamps of the run are modelled by the single opaque string `now`. -/
def toFullScholarship (now source jobId : String) (r : PartialScholarship) :
    Scholarship where
  id := generateScholarshipId r
  name := jsOrString r.name ""
  deadline := jsOrString r.deadline ""
  url := jsOrString r.url ""
  description := jsOrString r.description ""
  eligibility := jsOrString r.eligibility ""
  organization := jsOrString r.organization ""
  academicLevel := jsOrString r.academicLevel ""
  geographicRestrictions := jsOrString r.geographicRestrictions ""
  targetType := jsOrString r.targetType "both"
  ethnicity := ensureNonEmptyString r.ethnicity "unspecified"
  gender := ensureNonEmptyString r.gender "unspecified"
  minAward := jsOrNum r.minAward 0
  maxAward := jsOrNum r.maxAward 0
  renewable := jsOrBool r.renewable false
  country := jsOrString r.country "US"
  applyUrl := jsOrString r.applyUrl ""
  isActive := r.isActive.getD true
  essayRequired := jsOrBool r.essayRequired false
  recommendationsRequired := jsOrBool r.recommendationsRequired false
  createdAt := now
  updatedAt := now
  source := source
  jobId := jobId

/-- The `(id, deadline)` key under which `processScholarships` checks and
stores a candidate. -/
def candidateKey (r : PartialScholarship) : StoreKey :=
  (generateScholarshipId r, jsOrString r.deadline "")

/-- The running state of one `processScholarships` call: the store, the
`inserted`/`updated` counters, the error list, and how many get/put calls
have been issued (to index the fault-injection behaviour). -/
structure RunState where
  store : Store
  inserted : Nat
  updated : Nat
  errors : List String
  getCalls : Nat
  putCalls : Nat
deriving DecidableEq

def initRunState (st : Store) : RunState := ⟨st, 0, 0, [], 0, 0⟩

/-- One iteration of the `processScholarships` loop (lines 261–307): build
`fullScholarship`, check for a duplicate, and either count `updated`
(issuing no write), or attempt the save and count `inserted` on success or
record the error on failure.  The surrounding `try/catch` of the loop body
never fires: every operation inside already catches its own errors. -/
def processOne (beh : DbBehavior) (now source jobId : String) (st : RunState)
    (r : PartialScholarship) : RunState :=
  let full := toFullScholarship now source jobId r
  let isDup := checkDuplicate (beh.getFails st.getCalls) st.store full
  let st1 := { st with getCalls := st.getCalls + 1 }
  if isDup then { st1 with updated := st1.updated + 1 }
  else
    let (store', saved) :=
      saveScholarship (beh.putFails st1.putCalls) now jobId st1.store full
    let st2 := { st1 with putCalls := st1.putCalls + 1, store := store' }
    if saved then { st2 with inserted := st2.inserted + 1 }
    else { st2 with errors := st2.errors ++ ["Failed to save scholarship: " ++ full.name] }

/-- `processScholarships(scholarships)` (base-scraper.ts lines 252–310). -/
def processScholarships (beh : DbBehavior) (now source jobId : String)
    (st : Store) (rs : List PartialScholarship) : RunState :=
  rs.foldl (processOne beh now source jobId) (initRunState st)

/-! ## `src/lambda/job-orchestrator/index.ts` -/

/-- One entry of the S3 websites configuration. -/
structure Website where
  name : String
  enabled : Bool
  scraperClass : String := ""
deriving DecidableEq

/-- One element of `jobResults`: the per-website outcome built inside the
fan-out's `try/catch`. -/
structure SubmitResult where
  website : String
  batchJobId : Option String
  status : String
  error : Option String := none
deriving DecidableEq

/-- A row of the jobs table as the handler writes it. -/
structure JobRecord where
  jobId : String
  startTime : String
  status : String
  website : String
  recordsFound : Nat
  recordsProcessed : Nat
  recordsInserted : Nat
  recordsUpdated : Nat
  errors : List String
  environment : String
deriving DecidableEq

/-- The handler's external world: the generated UUID and timestamp, the
environment tag, the S3 configuration fetch (which can throw), and the
Batch `SubmitJobCommand` outcome per website name (a Batch job id, or a
thrown error message). -/
structure OrchestratorEnv where
  jobId : String
  startTime : String
  environment : String
  config : Except String (List Website)
  submit : String → Except String String

/-- What the handler produced: every write it issued to the jobs table, and
the HTTP-style response. -/
structure HandlerOutcome where
  jobsTableWrites : List JobRecord
  statusCode : Nat
  totalJobs : Option Nat
  successfulJobs : Option Nat
  failedJobs : Option Nat
  results : List SubmitResult
  errorMessage : Option String
deriving DecidableEq

/-- The initial job record (index.ts lines 25–36). -/
def pendingJobRecord (env : OrchestratorEnv) : JobRecord where
  jobId := env.jobId
  startTime := env.startTime
  status := "pending"
  website := "all"
  recordsFound := 0
  recordsProcessed := 0
  recordsInserted := 0
  recordsUpdated := 0
  errors := []
  environment := env.environment

/-- The per-website task of the fan-out (index.ts lines 67–136): submission
failure is caught inside the task and turned into a `failed` result value,
so the promise itself always fulfils. -/
def submitWebsite (env : OrchestratorEnv) (w : Website) : SubmitResult :=
  match env.submit w.name with
  | .ok batchId => ⟨w.name, some batchId, "submitted", none⟩
  | .error e => ⟨w.name, none, "failed", some e⟩

/-- The orchestrator `handler` (index.ts lines 16–176): write the pending
job record, load and filter the websites configuration, fan out one
submission per enabled website, await them all (`Promise.all` over tasks
that never reject), and return a 200 summary; a throw before the fan-out
(the config load) is caught and returns a 500.  No further write to the
jobs table ever occurs. -/
def handler (env : OrchestratorEnv) : HandlerOutcome :=
  match env.config with
  | .error e =>
    { jobsTableWrites := [pendingJobRecord env]
      statusCode := 500
      totalJobs := none
      successfulJobs := none
      failedJobs := none
      results := []
      errorMessage := some e }
  | .ok sites =>
    let enabledWebsites := sites.filter (·.enabled)
    let jobResults := enabledWebsites.map (submitWebsite env)
    let successfulJobs := jobResults.filter (fun r => r.status = "submitted")
    let failedJobs := jobResults.filter (fun r => r.status = "failed")
    { jobsTableWrites := [pendingJobRecord env]
      statusCode := 200
      totalJobs := some jobResults.length
      successfulJobs := some successfulJobs.length
      failedJobs := some failedJobs.length
      results := jobResults
      errorMessage := none }

/-! ## Shared lemmas -/

theorem ensureNonEmptyString_ne_empty (v : Option String) (d : String) (hd : d ≠ "") :
    ensureNonEmptyString v d ≠ "" := by
  unfold ensureNonEmptyString
  cases v with
  | none => exact hd
  | some s =>
    dsimp only
    split
    · next h => exact h.2
    · exact hd

theorem ensureNonEmptyString_of_blank (v : Option String) (d : String)
    (h : v = none ∨ ∃ s, v = some s ∧ jsTrim s = "") :
    ensureNonEmptyString v d = d := by
  rcases h with rfl | ⟨s, rfl, hs⟩
  · rfl
  · show (if s ≠ "" ∧ jsTrim s ≠ "" then jsTrim s else d) = d
    rw [if_neg]
    intro hc
    exact hc.2 hs

/-! ## Claims -/

/-- **C1.**  The scholarship fingerprint is a deterministic function of
`(name, organization, deadline)`: two candidate records that agree on those
three fields get the same `generateScholarshipId`, and computing the id
twice on the same record yields the same identifier. -/
theorem generateScholarshipId_deterministic (s₁ s₂ : PartialScholarship)
    (hname : s₁.name = s₂.name) (horg : s₁.organization = s₂.organization)
    (hdeadline : s₁.deadline = s₂.deadline) :
    generateScholarshipId s₁ = generateScholarshipId s₂ ∧
    generateScholarshipId s₁ = generateScholarshipId s₁ := by
  refine ⟨?_, rfl⟩
  unfold generateScholarshipId
  rw [hname, horg, hdeadline]

/-- Witness for C1: two fetches of the same underlying scholarship that
differ in URL and in the adapter-assigned random id still fingerprint
identically. -/
theorem generateScholarshipId_deterministic_witness :
    generateScholarshipId
        { name := some "STEM Leaders Grant", organization := some "Acme Foundation",
          deadline := some "2025-03-01", url := some "https://a.example/x",
          id := some "3f2c8a2e-0000-4000-8000-000000000001" } =
      generateScholarshipId
        { name := some "STEM Leaders Grant", organization := some "Acme Foundation",
          deadline := some "2025-03-01", url := some "https://b.example/y",
          id := some "aaaaaaaa-bbbb-cccc-dddd-eeeeeeeeeeee" } :=
  (generateScholarshipId_deterministic _ _ rfl rfl rfl).1

/-- **C7.**  Every record `processScholarships` builds for persistence has
non-empty `ethnicity` and `gender`; when the candidate's field is missing,
empty, or whitespace-only, the normalised field is exactly the sentinel
`"unspecified"`, never the empty string. -/
theorem processScholarships_sentinel_fields (now source jobId : String)
    (r : PartialScholarship) :
    ((toFullScholarship now source jobId r).ethnicity ≠ "" ∧
      (toFullScholarship now source jobId r).gender ≠ "") ∧
    ((r.ethnicity = none ∨ ∃ s, r.ethnicity = some s ∧ jsTrim s = "") →
      (toFullScholarship now source jobId r).ethnicity = "unspecified") ∧
    ((r.gender = none ∨ ∃ s, r.gender = some s ∧ jsTrim s = "") →
      (toFullScholarship now source jobId r).gender = "unspecified") := by
  refine ⟨⟨?_, ?_⟩, ?_, ?_⟩
  · exact ensureNonEmptyString_ne_empty _ _ (by decide)
  · exact ensureNonEmptyString_ne_empty _ _ (by decide)
  · intro h
    exact ensureNonEmptyString_of_blank _ _ h
  · intro h
    exact ensureNonEmptyString_of_blank _ _ h

/-- Witness for C7: a candidate with whitespace-only ethnicity and missing
gender is normalised to the `"unspecified"` sentinel in both fields. -/
theorem processScholarships_sentinel_fields_witness :
    (toFullScholarship "2025-01-01T00:00:00Z" "CareerOneScraper" "job-1"
        { name := some "Grant", ethnicity := some "   ", gender := none }).ethnicity =
      "unspecified" ∧
    (toFullScholarship "2025-01-01T00:00:00Z" "CareerOneScraper" "job-1"
        { name := some "Grant", ethnicity := some "   ", gender := none }).gender =
      "unspecified" :=
  ⟨(processScholarships_sentinel_fields _ _ _ _).2.1 (Or.inr ⟨"   ", rfl, by decide⟩),
   (processScholarships_sentinel_fields _ _ _ _).2.2 (Or.inl rfl)⟩

theorem withRetryFrom_success {α : Type} (op : Nat → Except (Option String) α) (a : α) :
    ∀ k r start, k ≤ r → (∀ j, j < k → ∃ e, op (start + j) = .error e) →
      op (start + k) = .ok a → withRetryFrom op start r = (.ok a, k + 1) := by
  intro k
  induction k with
  | zero =>
    intro r start _ _ hok
    rw [Nat.add_zero] at hok
    unfold withRetryFrom
    rw [hok]
  | succ k ih =>
    intro r start hkr herr hok
    obtain ⟨e0, he0⟩ := herr 0 (Nat.succ_pos k)
    rw [Nat.add_zero] at he0
    obtain ⟨r₂, rfl⟩ : ∃ r₂, r = r₂ + 1 := ⟨r - 1, by omega⟩
    have hrec : withRetryFrom op (start + 1) r₂ = (.ok a, k + 1) := by
      refine ih r₂ (start + 1) (by omega) (fun j hj => ?_) ?_
      · have := herr (j + 1) (by omega)
        rwa [show start + (j + 1) = start + 1 + j by omega] at this
      · rwa [show start + 1 + k = start + (k + 1) by omega]
    unfold withRetryFrom
    rw [he0]
    simp only [hrec]

theorem withRetryFrom_exhaust {α : Type} (op : Nat → Except (Option String) α) :
    ∀ r start, (∀ j, j ≤ r → ∃ e, op (start + j) = .error e) →
      ∃ e, op (start + r) = .error e ∧ withRetryFrom op start r = (.error e, r + 1) := by
  intro r
  induction r with
  | zero =>
    intro start h
    obtain ⟨e, he⟩ := h 0 le_rfl
    rw [Nat.add_zero] at he
    refine ⟨e, by rwa [Nat.add_zero], ?_⟩
    unfold withRetryFrom
    rw [he]
  | succ r ih =>
    intro start h
    obtain ⟨e0, he0⟩ := h 0 (Nat.zero_le _)
    rw [Nat.add_zero] at he0
    obtain ⟨e, helast, heq⟩ := ih (start + 1) (fun j hj => by
      have := h (j + 1) (by omega)
      rwa [show start + (j + 1) = start + 1 + j by omega] at this)
    refine ⟨e, ?_, ?_⟩
    · rwa [show start + (r + 1) = start + 1 + r by omega]
    · unfold withRetryFrom
      rw [he0]
      simp only [heq]

/-- **C5.**  `withRetry` returns the operation's value as soon as one
invocation succeeds, and once all attempts are exhausted it fails with the
last underlying error.  An executor configured for `maxAttempts` total
attempts is `withRetry(op, maxAttempts - 1)`, since the code's second
argument counts the retries that follow the first attempt.  If the first
success is at (0-based) invocation `k < maxAttempts`, the operation is
invoked exactly `k + 1` times — in particular an operation failing on its
first two invocations and succeeding on the third is invoked exactly 3
times under `maxAttempts = 3`; if all `maxAttempts` invocations fail,
exactly `maxAttempts` invocations take place and the last error is
rethrown. -/
theorem withRetry_first_success_or_exhaustion {α : Type}
    (op : Nat → Except (Option String) α) (maxAttempts : Nat) (hm : 1 ≤ maxAttempts) :
    (∀ k a, k < maxAttempts → (∀ j, j < k → ∃ e, op j = .error e) → op k = .ok a →
      withRetry op (maxAttempts - 1) = (.ok a, k + 1)) ∧
    ((∀ j, j < maxAttempts → ∃ e, op j = .error e) →
      ∃ e, op (maxAttempts - 1) = .error e ∧
        withRetry op (maxAttempts - 1) = (.error e, maxAttempts)) := by
  constructor
  · intro k a hk herr hok
    exact withRetryFrom_success op a k (maxAttempts - 1) 0 (by omega)
      (fun j hj => by simpa using herr j (by omega)) (by simpa using hok)
  · intro herr
    obtain ⟨e, h1, h2⟩ := withRetryFrom_exhaust op (maxAttempts - 1) 0
      (fun j hj => by simpa using herr j (by omega))
    refine ⟨e, by simpa using h1, ?_⟩
    unfold withRetry
    rw [h2, show maxAttempts - 1 + 1 = maxAttempts by omega]

/-- Witness for C5: an operation that throws twice and succeeds on the
third invocation, run with 3 total attempts (`retries = 2`), returns the
success value having been invoked exactly 3 times. -/
theorem withRetry_first_success_or_exhaustion_witness :
    withRetry
        (fun k => if k < 2 then Except.error (some "ThrottlingException")
                  else Except.ok (5000 : Nat)) 2 =
      (Except.ok 5000, 3) :=
  (withRetry_first_success_or_exhaustion _ 3 (by norm_num)).1 2 5000 (by norm_num)
    (fun j hj => ⟨some "ThrottlingException", by simp [hj]⟩) (by norm_num)

theorem backoffDelay_of_throttling (retries : Nat) (e : Option String)
    (h : isThrottlingError e = true) :
    backoffDelay retries e = 2 ^ (4 - (retries : ℤ)) * 1000 := by
  unfold backoffDelay
  rw [h]
  simp

theorem backoffDelay_of_timeout (retries : Nat) (e : Option String)
    (h1 : isThrottlingError e = false) (h2 : isTimeoutError e = true) :
    backoffDelay retries e = 2 ^ (5 - (retries : ℤ)) * 1000 := by
  unfold backoffDelay
  rw [h1, h2]
  simp

theorem backoffDelay_of_generic (retries : Nat) (e : Option String)
    (h1 : isThrottlingError e = false) (h2 : isTimeoutError e = false) :
    backoffDelay retries e = 2000 := by
  unfold backoffDelay
  rw [h1, h2]
  simp

theorem two_zpow_mul_1000_lt {a b : ℤ} (h : a < b) :
    (2 : ℚ) ^ a * 1000 < (2 : ℚ) ^ b * 1000 := by
  have h2 := zpow_lt_zpow_right₀ (by norm_num : (1 : ℚ) < 2) h
  nlinarith [h2]

/-- **C6 (amended).**  The backoff-delay classes of `withRetry`: the
timeout-class delay is exactly twice the throttling-class delay at the same
retry step, hence strictly longer; the generic delay is the constant
2000 ms; the throttling delay exceeds the generic one only when at most 2
retries remain (it equals 2000 ms at 3 remaining retries and is shorter at
4 or more), and the timeout delay exceeds the generic one only when at most
3 retries remain (equal at 4, shorter at 5 or more); throttling and timeout
delays double from one attempt to the next (base 2, deterministic, no
jitter). -/
theorem backoffDelay_classified (retries : Nat) (eTh eTm eGen : Option String)
    (hth : isThrottlingError eTh = true)
    (ht1 : isThrottlingError eTm = false) (ht2 : isTimeoutError eTm = true)
    (hg1 : isThrottlingError eGen = false) (hg2 : isTimeoutError eGen = false) :
    backoffDelay retries eTm = 2 * backoffDelay retries eTh ∧
    backoffDelay retries eTh < backoffDelay retries eTm ∧
    backoffDelay retries eGen = 2000 ∧
    (retries ≤ 2 → backoffDelay retries eGen < backoffDelay retries eTh) ∧
    (retries = 3 → backoffDelay retries eTh = 2000) ∧
    (4 ≤ retries → backoffDelay retries eTh < backoffDelay retries eGen) ∧
    (retries ≤ 3 → backoffDelay retries eGen < backoffDelay retries eTm) ∧
    (retries = 4 → backoffDelay retries eTm = 2000) ∧
    (5 ≤ retries → backoffDelay retries eTm < backoffDelay retries eGen) ∧
    backoffDelay (retries + 1) eTh * 2 = backoffDelay retries eTh ∧
    backoffDelay (retries + 1) eTm * 2 = backoffDelay retries eTm := by
  rw [backoffDelay_of_throttling _ _ hth, backoffDelay_of_timeout _ _ ht1 ht2,
    backoffDelay_of_generic _ _ hg1 hg2, backoffDelay_of_throttling _ _ hth,
    backoffDelay_of_timeout _ _ ht1 ht2]
  have h2000 : (2000 : ℚ) = 2 ^ (1 : ℤ) * 1000 := by norm_num
  refine ⟨?_, ?_, rfl, ?_, ?_, ?_, ?_, ?_, ?_, ?_, ?_⟩
  · rw [show (5 - (retries : ℤ)) = 1 + (4 - (retries : ℤ)) by ring,
      zpow_add₀ (by norm_num : (2 : ℚ) ≠ 0), zpow_one]
    ring
  · exact two_zpow_mul_1000_lt (by omega)
  · intro hr
    have hr2 : (retries : ℤ) ≤ 2 := by exact_mod_cast hr
    rw [h2000]
    exact two_zpow_mul_1000_lt (by omega)
  · intro hr
    subst hr
    norm_num
  · intro hr
    have hr2 : (4 : ℤ) ≤ (retries : ℤ) := by exact_mod_cast hr
    rw [h2000]
    exact two_zpow_mul_1000_lt (by omega)
  · intro hr
    have hr2 : (retries : ℤ) ≤ 3 := by exact_mod_cast hr
    rw [h2000]
    exact two_zpow_mul_1000_lt (by omega)
  · intro hr
    subst hr
    norm_num
  · intro hr
    have hr2 : (5 : ℤ) ≤ (retries : ℤ) := by exact_mod_cast hr
    rw [h2000]
    exact two_zpow_mul_1000_lt (by omega)
  · push_cast
    rw [show (4 - ((retries : ℤ) + 1)) = (4 - (retries : ℤ)) + -1 by ring,
      zpow_add₀ (by norm_num : (2 : ℚ) ≠ 0)]
    norm_num
    ring
  · push_cast
    rw [show (5 - ((retries : ℤ) + 1)) = (5 - (retries : ℤ)) + -1 by ring,
      zpow_add₀ (by norm_num : (2 : ℚ) ≠ 0)]
    norm_num
    ring

/-- Witness for C6 (amended), at `retries = 2` with representative
classified errors. -/
theorem backoffDelay_classified_witness :
    backoffDelay 2 (some "Request timeout") = 2 * backoffDelay 2 (some "Rate exceeded") ∧
    backoffDelay 2 (some "boom") = 2000 ∧
    backoffDelay 2 (some "boom") < backoffDelay 2 (some "Rate exceeded") :=
  have h := backoffDelay_classified 2 (some "Rate exceeded") (some "Request timeout")
    (some "boom") (by decide) (by decide) (by decide) (by decide) (by decide)
  ⟨h.1, h.2.2.1, h.2.2.2.1 (by norm_num)⟩

/-- Counterexample for C6 as stated: at a retry step with 3 retries left the
throttling-class delay equals the generic 2000 ms delay (it is not strictly
longer), and with 4 retries left the timeout-class delay also equals the
generic delay (it is not strictly the longest). -/
theorem backoffDelay_not_strictly_ordered_counterexample :
    isThrottlingError (some "Rate exceeded") = true ∧
    isThrottlingError (some "connection reset") = false ∧
    isTimeoutError (some "connection reset") = false ∧
    isThrottlingError (some "Request timeout") = false ∧
    isTimeoutError (some "Request timeout") = true ∧
    backoffDelay 3 (some "Rate exceeded") = 2000 ∧
    backoffDelay 3 (some "connection reset") = 2000 ∧
    ¬ backoffDelay 3 (some "connection reset") < backoffDelay 3 (some "Rate exceeded") ∧
    backoffDelay 4 (some "Request timeout") = 2000 ∧
    backoffDelay 4 (some "connection reset") = 2000 ∧
    ¬ backoffDelay 4 (some "connection reset") < backoffDelay 4 (some "Request timeout") := by
  refine ⟨by decide, by decide, by decide, by decide, by decide, ?_, ?_, ?_, ?_, ?_, ?_⟩
  · rw [backoffDelay_of_throttling 3 (some "Rate exceeded") (by decide)]
    norm_num
  · rw [backoffDelay_of_generic 3 (some "connection reset") (by decide) (by decide)]
  · rw [backoffDelay_of_throttling 3 (some "Rate exceeded") (by decide),
      backoffDelay_of_generic 3 (some "connection reset") (by decide) (by decide)]
    norm_num
  · rw [backoffDelay_of_timeout 4 (some "Request timeout") (by decide) (by decide)]
    norm_num
  · rw [backoffDelay_of_generic 4 (some "connection reset") (by decide) (by decide)]
  · rw [backoffDelay_of_timeout 4 (some "Request timeout") (by decide) (by decide),
      backoffDelay_of_generic 4 (some "connection reset") (by decide) (by decide)]
    norm_num

/-- A concrete orchestrator environment whose configuration yields zero
enabled sources. -/
def envZeroSources : OrchestratorEnv where
  jobId := "8d1f4c3a-1111-4222-8333-444455556666"
  startTime := "2025-02-01T00:00:00.000Z"
  environment := "dev"
  config := .ok [⟨"careerone", false, "CareerOneScraper"⟩]
  submit := fun _ => .ok "batch-1"

/-- Counterexample for C3 as stated: the handler's only write to the jobs
table carries status `"pending"`; no write with status `"running"` or
`"completed"` is ever issued, so with zero enabled sources the job record
does not end in status `"completed"`. -/
theorem handler_never_completes_job_record :
    (handler envZeroSources).jobsTableWrites = [pendingJobRecord envZeroSources] ∧
    (pendingJobRecord envZeroSources).status = "pending" ∧
    ∀ rec ∈ (handler envZeroSources).jobsTableWrites,
      rec.status ≠ "completed" ∧ rec.status ≠ "running" := by
  refine ⟨rfl, rfl, ?_⟩
  intro rec hrec
  have hw : (handler envZeroSources).jobsTableWrites = [pendingJobRecord envZeroSources] := rfl
  rw [hw, List.mem_singleton] at hrec
  subst hrec
  exact ⟨by decide, by decide⟩

/-- **C3 (amended).**  The handler creates the job record in status
`pending` with zero counts and an empty error list, and never updates it:
that pending write is the only jobs-table write on every path (success or
config failure).  When the configuration yields zero enabled sources the
handler still returns a 200 response reporting `totalJobs = 0`,
`successfulJobs = 0`, `failedJobs = 0` and no error, while the job record
remains in status `pending`. -/
theorem handler_single_pending_write (env : OrchestratorEnv) :
    (handler env).jobsTableWrites = [pendingJobRecord env] ∧
    (pendingJobRecord env).status = "pending" ∧
    (pendingJobRecord env).recordsFound = 0 ∧
    (pendingJobRecord env).recordsInserted = 0 ∧
    (pendingJobRecord env).recordsUpdated = 0 ∧
    (pendingJobRecord env).errors = [] ∧
    (∀ sites, env.config = .ok sites → sites.filter (fun s => s.enabled) = [] →
      (handler env).statusCode = 200 ∧ (handler env).totalJobs = some 0 ∧
      (handler env).successfulJobs = some 0 ∧ (handler env).failedJobs = some 0 ∧
      (handler env).results = [] ∧ (handler env).errorMessage = none) := by
  refine ⟨?_, rfl, rfl, rfl, rfl, rfl, ?_⟩
  · unfold handler
    cases env.config <;> rfl
  · intro sites hconf hempty
    unfold handler
    rw [hconf]
    dsimp only
    rw [hempty]
    exact ⟨rfl, rfl, rfl, rfl, rfl, rfl⟩

/-- Witness for C3 (amended): the zero-enabled-sources environment gets a
200 summary with zero totals while the job record stays pending. -/
theorem handler_single_pending_write_witness :
    (handler envZeroSources).jobsTableWrites = [pendingJobRecord envZeroSources] ∧
    (handler envZeroSources).statusCode = 200 ∧
    (handler envZeroSources).totalJobs = some 0 ∧
    (handler envZeroSources).errorMessage = none :=
  have h := handler_single_pending_write envZeroSources
  have h0 := h.2.2.2.2.2.2 [⟨"careerone", false, "CareerOneScraper"⟩] rfl (by decide)
  ⟨h.1, h0.1, h0.2.1, h0.2.2.2.2.2⟩

/-- **C4.**  Partial failure is isolated: when exactly one enabled source's
Batch submission throws, the fan-out catches the failure inside that
source's task, the handler still awaits and reports every task
(`Promise.all` never rejects), and the summary counts the other `N - 1`
sources as submitted, reports the one failure with its error message, and
returns a non-failed (200) outcome. -/
theorem handler_partial_failure_isolated
    (env : OrchestratorEnv) (sites pre post : List Website) (w : Website) (e : String)
    (hconf : env.config = .ok sites)
    (henabled : sites.filter (fun s => s.enabled) = pre ++ w :: post)
    (hok : ∀ x ∈ pre ++ post, ∃ jid, env.submit x.name = .ok jid)
    (hfail : env.submit w.name = .error e) :
    (handler env).statusCode = 200 ∧
    (handler env).totalJobs = some (pre.length + 1 + post.length) ∧
    (handler env).successfulJobs = some (pre.length + post.length) ∧
    (handler env).failedJobs = some 1 ∧
    (⟨w.name, none, "failed", some e⟩ : SubmitResult) ∈ (handler env).results ∧
    (handler env).errorMessage = none := by
  have hsubmitw : submitWebsite env w = ⟨w.name, none, "failed", some e⟩ := by
    unfold submitWebsite
    rw [hfail]
  have hpre : ∀ x ∈ pre, (submitWebsite env x).status = "submitted" := by
    intro x hx
    obtain ⟨jid, hj⟩ := hok x (List.mem_append_left _ hx)
    unfold submitWebsite
    rw [hj]
  have hpost : ∀ x ∈ post, (submitWebsite env x).status = "submitted" := by
    intro x hx
    obtain ⟨jid, hj⟩ := hok x (List.mem_append_right _ hx)
    unfold submitWebsite
    rw [hj]
  unfold handler
  rw [hconf]
  dsimp only
  rw [henabled, List.map_append, List.map_cons, hsubmitw]
  have hfiltS1 : (pre.map (submitWebsite env)).filter (fun r => r.status = "submitted") =
      pre.map (submitWebsite env) := by
    rw [List.filter_eq_self]
    intro r hr
    obtain ⟨x, hx, rfl⟩ := List.mem_map.mp hr
    simp [hpre x hx]
  have hfiltS2 : (post.map (submitWebsite env)).filter (fun r => r.status = "submitted") =
      post.map (submitWebsite env) := by
    rw [List.filter_eq_self]
    intro r hr
    obtain ⟨x, hx, rfl⟩ := List.mem_map.mp hr
    simp [hpost x hx]
  have hfiltF1 : (pre.map (submitWebsite env)).filter (fun r => r.status = "failed") = [] := by
    rw [List.filter_eq_nil_iff]
    intro r hr
    obtain ⟨x, hx, rfl⟩ := List.mem_map.mp hr
    simp [hpre x hx]
  have hfiltF2 : (post.map (submitWebsite env)).filter (fun r => r.status = "failed") = [] := by
    rw [List.filter_eq_nil_iff]
    intro r hr
    obtain ⟨x, hx, rfl⟩ := List.mem_map.mp hr
    simp [hpost x hx]
  refine ⟨rfl, ?_, ?_, ?_, ?_, rfl⟩
  · simp only [List.length_append, List.length_cons, List.length_map, Option.some.injEq]
    omega
  · simp [List.filter_append, List.filter_cons, hfiltS1, hfiltS2]
  · simp [List.filter_append, List.filter_cons, hfiltF1, hfiltF2]
  · exact List.mem_append_right _ (List.mem_cons_self _ _)

/-- Witness for C4: three enabled sources of which the middle one's
submission throws; the summary reports 2 successes, 1 failure with its
message, and a 200 response. -/
theorem handler_partial_failure_isolated_witness :
    (handler
        { jobId := "j-1", startTime := "t0", environment := "dev",
          config := .ok [⟨"careerone", true, "CareerOneScraper"⟩,
            ⟨"collegescholarship", true, "CollegeScholarshipScraper"⟩,
            ⟨"general_search", true, "GeneralSearchScraper"⟩],
          submit := fun n => if n = "collegescholarship"
            then .error "AccessDeniedException" else .ok "batch-7" }).statusCode = 200 ∧
    (handler
        { jobId := "j-1", startTime := "t0", environment := "dev",
          config := .ok [⟨"careerone", true, "CareerOneScraper"⟩,
            ⟨"collegescholarship", true, "CollegeScholarshipScraper"⟩,
            ⟨"general_search", true, "GeneralSearchScraper"⟩],
          submit := fun n => if n = "collegescholarship"
            then .error "AccessDeniedException" else .ok "batch-7" }).successfulJobs = some 2 ∧
    (handler
        { jobId := "j-1", startTime := "t0", environment := "dev",
          config := .ok [⟨"careerone", true, "CareerOneScraper"⟩,
            ⟨"collegescholarship", true, "CollegeScholarshipScraper"⟩,
            ⟨"general_search", true, "GeneralSearchScraper"⟩],
          submit := fun n => if n = "collegescholarship"
            then .error "AccessDeniedException" else .ok "batch-7" }).failedJobs = some 1 := by
  have h := handler_partial_failure_isolated
    { jobId := "j-1", startTime := "t0", environment := "dev",
      config := .ok [⟨"careerone", true, "CareerOneScraper"⟩,
        ⟨"collegescholarship", true, "CollegeScholarshipScraper"⟩,
        ⟨"general_search", true, "GeneralSearchScraper"⟩],
      submit := fun n => if n = "collegescholarship"
        then .error "AccessDeniedException" else .ok "batch-7" }
    [⟨"careerone", true, "CareerOneScraper"⟩,
      ⟨"collegescholarship", true, "CollegeScholarshipScraper"⟩,
      ⟨"general_search", true, "GeneralSearchScraper"⟩]
    [⟨"careerone", true, "CareerOneScraper"⟩]
    [⟨"general_search", true, "GeneralSearchScraper"⟩]
    ⟨"collegescholarship", true, "CollegeScholarshipScraper"⟩
    "AccessDeniedException" rfl (by decide)
    (by
      intro x hx
      fin_cases hx <;> exact ⟨"batch-7", rfl⟩)
    rfl
  exact ⟨h.1, h.2.2.1, h.2.2.2.1⟩

theorem storeLookup_storePut_self (k : StoreKey) (v : Scholarship) :
    ∀ st : Store, storeLookup (storePut st k v) k = some v := by
  intro st
  induction st with
  | nil => simp [storePut, storeLookup]
  | cons e st ih =>
    by_cases he : e.1 = k
    · simp [storePut, storeLookup, he]
    · simp [storePut, storeLookup, he, ih]

theorem storeLookup_storePut_ne (k k₂ : StoreKey) (v : Scholarship) (hne : k₂ ≠ k) :
    ∀ st : Store, storeLookup (storePut st k v) k₂ = storeLookup st k₂ := by
  have hkk : ¬ k = k₂ := fun hc => hne hc.symm
  intro st
  induction st with
  | nil => simp [storePut, storeLookup, hkk]
  | cons e st ih =>
    by_cases he : e.1 = k
    · have he2 : ¬ e.1 = k₂ := fun hc => hne (hc ▸ he)
      simp [storePut, storeLookup, he, hkk, he2]
    · by_cases he2 : e.1 = k₂
      · simp [storePut, storeLookup, he, he2, hne]
      · simp [storePut, storeLookup, he, he2, ih]

theorem storeLookup_storePut_isSome (st : Store) (k k₂ : StoreKey) (v : Scholarship)
    (h : (storeLookup st k₂).isSome) : (storeLookup (storePut st k v) k₂).isSome := by
  by_cases hk : k₂ = k
  · subst hk
    rw [storeLookup_storePut_self]
    rfl
  · rw [storeLookup_storePut_ne k k₂ v hk]
    exact h

theorem mem_storePut (k : StoreKey) (v : Scholarship) (entry : StoreKey × Scholarship) :
    ∀ st : Store, entry ∈ storePut st k v → entry ∈ st ∨ entry = (k, v) := by
  intro st
  induction st with
  | nil =>
    intro h
    exact Or.inr (List.mem_singleton.mp h)
  | cons e st ih =>
    intro h
    by_cases he : e.1 = k
    · rw [storePut, if_pos he] at h
      rcases List.mem_cons.mp h with rfl | h
      · exact Or.inr rfl
      · exact Or.inl (List.mem_cons_of_mem e h)
    · rw [storePut, if_neg he] at h
      rcases List.mem_cons.mp h with rfl | h
      · exact Or.inl (List.mem_cons_self _ _)
      · rcases ih h with h2 | h2
        · exact Or.inl (List.mem_cons_of_mem e h2)
        · exact Or.inr h2

/-- The full case analysis of one `processScholarships` iteration:
a duplicate hit bumps `updated` and issues no write; otherwise a failed
write records the error string and a successful write stores
`putItem` under the candidate's `(fingerprint, deadline)` key and bumps
`inserted`. -/
theorem processOne_eq (beh : DbBehavior) (now source jobId : String)
    (st : RunState) (r : PartialScholarship) :
    processOne beh now source jobId st r =
      if checkDuplicate (beh.getFails st.getCalls) st.store
          (toFullScholarship now source jobId r) then
        { st with updated := st.updated + 1, getCalls := st.getCalls + 1 }
      else if beh.putFails st.putCalls then
        { st with
          getCalls := st.getCalls + 1
          putCalls := st.putCalls + 1
          errors := st.errors ++
            ["Failed to save scholarship: " ++ (toFullScholarship now source jobId r).name] }
      else
        { st with
          getCalls := st.getCalls + 1
          putCalls := st.putCalls + 1
          store := storePut st.store (candidateKey r)
            (putItem now jobId (toFullScholarship now source jobId r))
          inserted := st.inserted + 1 } := by
  unfold processOne saveScholarship
  by_cases hdup : checkDuplicate (beh.getFails st.getCalls) st.store
      (toFullScholarship now source jobId r)
  · simp [hdup]
  · by_cases hput : beh.putFails st.putCalls
    · simp [hdup, hput]
    · simp [hdup, hput]
      rfl

theorem processOne_store_cases (beh : DbBehavior) (now source jobId : String)
    (st : RunState) (r : PartialScholarship) :
    (processOne beh now source jobId st r).store = st.store ∨
    (processOne beh now source jobId st r).store =
      storePut st.store (candidateKey r)
        (putItem now jobId (toFullScholarship now source jobId r)) := by
  rw [processOne_eq]
  split
  · exact Or.inl rfl
  · split
    · exact Or.inl rfl
    · exact Or.inr rfl

theorem foldl_key_mono (beh : DbBehavior) (now source jobId : String) :
    ∀ (rs : List PartialScholarship) (st : RunState) (k : StoreKey),
      (storeLookup st.store k).isSome →
      (storeLookup ((rs.foldl (processOne beh now source jobId) st).store) k).isSome := by
  intro rs
  induction rs with
  | nil => intro st k h; exact h
  | cons r rs ih =>
    intro st k h
    rw [List.foldl_cons]
    apply ih
    rcases processOne_store_cases beh now source jobId st r with hc | hc
    · rw [hc]
      exact h
    · rw [hc]
      exact storeLookup_storePut_isSome _ _ _ _ h

theorem checkDuplicate_reliable (n : Nat) (st : Store) (now source jobId : String)
    (r : PartialScholarship) :
    checkDuplicate (dbReliable.getFails n) st (toFullScholarship now source jobId r) =
      (storeLookup st (candidateKey r)).isSome := rfl

theorem foldl_key_present (now source jobId : String) :
    ∀ (rs : List PartialScholarship) (st : RunState) (r : PartialScholarship), r ∈ rs →
      (storeLookup ((rs.foldl (processOne dbReliable now source jobId) st).store)
        (candidateKey r)).isSome := by
  intro rs
  induction rs with
  | nil => intro st r h; cases h
  | cons r0 rs ih =>
    intro st r h
    rcases List.mem_cons.mp h with rfl | h
    · rw [List.foldl_cons]
      apply foldl_key_mono
      rw [processOne_eq]
      by_cases hdup : (storeLookup st.store (candidateKey r)).isSome
      · rw [if_pos]
        · exact hdup
        · rw [checkDuplicate_reliable]
          exact hdup
      · rw [if_neg]
        · simp only [show dbReliable.putFails st.putCalls = false from rfl,
            Bool.false_eq_true, if_false]
          rw [storeLookup_storePut_self]
          rfl
        · rw [checkDuplicate_reliable]
          exact hdup
    · rw [List.foldl_cons]
      exact ih _ _ h

theorem foldl_all_dup (now source jobId : String) :
    ∀ (rs : List PartialScholarship) (st : RunState),
      (∀ r ∈ rs, (storeLookup st.store (candidateKey r)).isSome) →
      rs.foldl (processOne dbReliable now source jobId) st =
        { st with
          updated := st.updated + rs.length
          getCalls := st.getCalls + rs.length } := by
  intro rs
  induction rs with
  | nil => intro st _; rfl
  | cons r rs ih =>
    intro st h
    have hd := h r (List.mem_cons_self r rs)
    rw [List.foldl_cons, processOne_eq, if_pos]
    · rw [ih { st with updated := st.updated + 1, getCalls := st.getCalls + 1 }
        (fun r2 hr2 => h r2 (List.mem_cons_of_mem r hr2))]
      obtain ⟨store, ins, upd, errs, gc, pc⟩ := st
      simp only [List.length_cons, RunState.mk.injEq]
      refine ⟨trivial, trivial, by omega, trivial, by omega, trivial⟩
    · rw [checkDuplicate_reliable]
      exact hd

theorem foldl_store_entries (beh : DbBehavior) (now source jobId : String) :
    ∀ (rs : List PartialScholarship) (st : RunState) (entry : StoreKey × Scholarship),
      entry ∈ (rs.foldl (processOne beh now source jobId) st).store →
      entry ∈ st.store ∨ ∃ x ∈ rs, entry.1.1 = generateScholarshipId x ∧
        entry.2.id = generateScholarshipId x := by
  intro rs
  induction rs with
  | nil => intro st entry h; exact Or.inl h
  | cons r rs ih =>
    intro st entry h
    rw [List.foldl_cons] at h
    rcases ih _ _ h with h1 | ⟨x, hx, h2⟩
    · rcases processOne_store_cases beh now source jobId st r with hc | hc
      · rw [hc] at h1
        exact Or.inl h1
      · rw [hc] at h1
        rcases mem_storePut _ _ _ _ h1 with h2 | rfl
        · exact Or.inl h2
        · exact Or.inr ⟨r, List.mem_cons_self r rs, rfl, rfl⟩

    · exact Or.inr ⟨x, List.mem_cons_of_mem r hx, h2⟩

/-- **C2.**  Deduplication in `processScholarships`: a candidate whose
`(fingerprint, deadline)` key already exists in the store is counted as
`updated` and no write is issued (the stored record is untouched); a
candidate with no such record is written and counted as `inserted`.
Consequently a second run over the same unchanged input inserts nothing,
counts every record as `updated`, reports no errors, and leaves the store
exactly as the first run left it. -/
theorem processScholarships_dedup_idempotent
    (now₁ now₂ source jobId₁ jobId₂ : String) (s₀ : Store)
    (rs : List PartialScholarship) (st : RunState) (r : PartialScholarship) :
    ((storeLookup st.store (candidateKey r)).isSome →
      processOne dbReliable now₁ source jobId₁ st r =
        { st with updated := st.updated + 1, getCalls := st.getCalls + 1 }) ∧
    ((storeLookup st.store (candidateKey r)).isSome = false →
      processOne dbReliable now₁ source jobId₁ st r =
        { st with
          store := storePut st.store (candidateKey r)
            (putItem now₁ jobId₁ (toFullScholarship now₁ source jobId₁ r))
          inserted := st.inserted + 1
          getCalls := st.getCalls + 1
          putCalls := st.putCalls + 1 }) ∧
    (processScholarships dbReliable now₂ source jobId₂
        (processScholarships dbReliable now₁ source jobId₁ s₀ rs).store rs).inserted = 0 ∧
    (processScholarships dbReliable now₂ source jobId₂
        (processScholarships dbReliable now₁ source jobId₁ s₀ rs).store rs).updated =
      rs.length ∧
    (processScholarships dbReliable now₂ source jobId₂
        (processScholarships dbReliable now₁ source jobId₁ s₀ rs).store rs).errors = [] ∧
    (processScholarships dbReliable now₂ source jobId₂
        (processScholarships dbReliable now₁ source jobId₁ s₀ rs).store rs).store =
      (processScholarships dbReliable now₁ source jobId₁ s₀ rs).store := by
  have hpresent : ∀ x ∈ rs,
      (storeLookup ((processScholarships dbReliable now₁ source jobId₁ s₀ rs).store)
        (candidateKey x)).isSome :=
    fun x hx => foldl_key_present now₁ source jobId₁ rs (initRunState s₀) x hx
  have hrun2 : processScholarships dbReliable now₂ source jobId₂
      (processScholarships dbReliable now₁ source jobId₁ s₀ rs).store rs =
      { initRunState ((processScholarships dbReliable now₁ source jobId₁ s₀ rs).store) with
        updated := 0 + rs.length
        getCalls := 0 + rs.length } :=
    foldl_all_dup now₂ source jobId₂ rs _ (fun x hx => hpresent x hx)
  refine ⟨?_, ?_, ?_, ?_, ?_, ?_⟩
  · intro h
    rw [processOne_eq, if_pos]
    rw [checkDuplicate_reliable]
    exact h
  · intro h
    rw [processOne_eq, if_neg]
    · simp only [show dbReliable.putFails st.putCalls = false from rfl,
        Bool.false_eq_true, if_false]
    · rw [checkDuplicate_reliable]
      simp [h]
  · rw [hrun2]
    rfl
  · rw [hrun2]
    show 0 + rs.length = rs.length
    omega
  · rw [hrun2]
    rfl
  · rw [hrun2]
    rfl

/-- The candidate record used by the C2 witness. -/
def c2Record : PartialScholarship :=
  { name := some "Future Engineers Award", organization := some "Acme Foundation",
    deadline := some "2025-04-15" }

/-- Witness for C2: a fresh candidate on an empty store is inserted; running
the single-record pipeline a second time over the first run's store counts
it as updated, inserts nothing, and leaves the store unchanged. -/
theorem processScholarships_dedup_idempotent_witness :
    processOne dbReliable "t1" "CareerOneScraper" "j1" (initRunState []) c2Record =
      { initRunState [] with
        store := storePut [] (candidateKey c2Record)
          (putItem "t1" "j1" (toFullScholarship "t1" "CareerOneScraper" "j1" c2Record))
        inserted := 1
        getCalls := 1
        putCalls := 1 } ∧
    (processScholarships dbReliable "t2" "CareerOneScraper" "j2"
        (processScholarships dbReliable "t1" "CareerOneScraper" "j1" []
          [c2Record]).store [c2Record]).inserted = 0 ∧
    (processScholarships dbReliable "t2" "CareerOneScraper" "j2"
        (processScholarships dbReliable "t1" "CareerOneScraper" "j1" []
          [c2Record]).store [c2Record]).updated = 1 ∧
    (processScholarships dbReliable "t2" "CareerOneScraper" "j2"
        (processScholarships dbReliable "t1" "CareerOneScraper" "j1" []
          [c2Record]).store [c2Record]).store =
      (processScholarships dbReliable "t1" "CareerOneScraper" "j1" [] [c2Record]).store :=
  have h := processScholarships_dedup_idempotent "t1" "t2" "CareerOneScraper" "j1" "j2"
    [] [c2Record] (initRunState []) c2Record
  ⟨h.2.1 rfl, h.2.2.1, h.2.2.2.1, h.2.2.2.2.2⟩

/-- **C9.**  The identifier actually persisted by `processScholarships` is
the MD5 fingerprint computed by `generateScholarshipId`: the normalisation
discards any adapter-assigned id (replacing every candidate's id field
changes nothing about the run), the normalised record's `id` equals the
fingerprint, and every entry the run adds to the store carries the
fingerprint of some input candidate both as its key and as its stored
`id`. -/
theorem processScholarships_persists_fingerprint
    (beh : DbBehavior) (now source jobId : String) (s₀ : Store)
    (rs : List PartialScholarship) (f : PartialScholarship → Option String)
    (r : PartialScholarship) :
    toFullScholarship now source jobId { r with id := f r } =
      toFullScholarship now source jobId r ∧
    (toFullScholarship now source jobId r).id = generateScholarshipId r ∧
    processScholarships beh now source jobId s₀
        (rs.map (fun x => { x with id := f x })) =
      processScholarships beh now source jobId s₀ rs ∧
    ∀ entry ∈ (processScholarships beh now source jobId s₀ rs).store,
      entry ∈ s₀ ∨ ∃ x ∈ rs, entry.1.1 = generateScholarshipId x ∧
        entry.2.id = generateScholarshipId x := by
  refine ⟨rfl, rfl, ?_, ?_⟩
  · unfold processScholarships
    rw [List.foldl_map]
    rfl
  · exact fun entry h => foldl_store_entries beh now source jobId rs (initRunState s₀) entry h

/-- The candidate record used by the C9 witness. -/
def c9Record : PartialScholarship :=
  { id := some "3b5e0a11-7c1d-4e15-9f00-aaaaaaaaaaaa",
    name := some "Tech Women Grant", organization := some "TechOrg",
    deadline := some "2025-06-30" }

/-- Witness for C9: replacing the adapter-assigned UUID does not change the
run, and the single entry the run stores carries the MD5 fingerprint as key
and id. -/
theorem processScholarships_persists_fingerprint_witness :
    processScholarships dbReliable "t0" "GeneralSearchScraper" "j0" []
        ([c9Record].map (fun x =>
          { x with id := some "11111111-2222-4333-8444-555555555555" })) =
      processScholarships dbReliable "t0" "GeneralSearchScraper" "j0" [] [c9Record] ∧
    (toFullScholarship "t0" "GeneralSearchScraper" "j0" c9Record).id =
      generateScholarshipId c9Record ∧
    (((generateScholarshipId c9Record, "2025-06-30"),
        putItem "t0" "j0" (toFullScholarship "t0" "GeneralSearchScraper" "j0" c9Record)) ∈
          ([] : Store) ∨
      ∃ x ∈ [c9Record],
        ((generateScholarshipId c9Record, "2025-06-30"),
          putItem "t0" "j0" (toFullScholarship "t0" "GeneralSearchScraper" "j0" c9Record)).1.1 =
            generateScholarshipId x ∧
        ((generateScholarshipId c9Record, "2025-06-30"),
          putItem "t0" "j0" (toFullScholarship "t0" "GeneralSearchScraper" "j0" c9Record)).2.id =
            generateScholarshipId x) :=
  have h := processScholarships_persists_fingerprint dbReliable "t0" "GeneralSearchScraper"
    "j0" [] [c9Record] (fun _ => some "11111111-2222-4333-8444-555555555555") c9Record
  ⟨h.2.2.1, h.2.1, h.2.2.2 _ (by decide)⟩

/-- **C10.**  A thrown read in `checkDuplicate` is swallowed and reported as
"not a duplicate", so under a store whose reads all fail a re-observed
candidate (its key already present) is saved again — the stored item is
overwritten with the fresh normalised record — and counted as `inserted`,
with no error recorded. -/
theorem checkDuplicate_swallows_error_and_rewrites
    (st s₀ : Store) (sch old : Scholarship) (now source jobId : String)
    (r : PartialScholarship)
    (hpresent : storeLookup s₀ (candidateKey r) = some old) :
    checkDuplicate true st sch = false ∧
    (processScholarships dbGetFailing now source jobId s₀ [r]).inserted = 1 ∧
    (processScholarships dbGetFailing now source jobId s₀ [r]).updated = 0 ∧
    (processScholarships dbGetFailing now source jobId s₀ [r]).errors = [] ∧
    (processScholarships dbGetFailing now source jobId s₀ [r]).store =
      storePut s₀ (candidateKey r)
        (putItem now jobId (toFullScholarship now source jobId r)) ∧
    storeLookup (processScholarships dbGetFailing now source jobId s₀ [r]).store
        (candidateKey r) =
      some (putItem now jobId (toFullScholarship now source jobId r)) := by
  refine ⟨rfl, rfl, rfl, rfl, rfl, ?_⟩
  exact storeLookup_storePut_self (candidateKey r)
    (putItem now jobId (toFullScholarship now source jobId r)) s₀

/-- The candidate record used by the C10 witness. -/
def c10Record : PartialScholarship :=
  { name := some "Merit Excellence Prize", organization := some "Beta Trust",
    deadline := some "2025-09-01" }

/-- Witness for C10: with the record already stored and every read throwing,
the single-record run re-writes the record and counts it inserted. -/
theorem checkDuplicate_swallows_error_and_rewrites_witness :
    checkDuplicate true [] (toFullScholarship "t0" "Src" "j0" c10Record) = false ∧
    (processScholarships dbGetFailing "t1" "Src" "j1"
        [(candidateKey c10Record, toFullScholarship "t0" "Src" "j0" c10Record)]
        [c10Record]).inserted = 1 ∧
    (processScholarships dbGetFailing "t1" "Src" "j1"
        [(candidateKey c10Record, toFullScholarship "t0" "Src" "j0" c10Record)]
        [c10Record]).errors = [] ∧
    storeLookup (processScholarships dbGetFailing "t1" "Src" "j1"
        [(candidateKey c10Record, toFullScholarship "t0" "Src" "j0" c10Record)]
        [c10Record]).store (candidateKey c10Record) =
      some (putItem "t1" "j1" (toFullScholarship "t1" "Src" "j1" c10Record)) :=
  have h := checkDuplicate_swallows_error_and_rewrites []
    [(candidateKey c10Record, toFullScholarship "t0" "Src" "j0" c10Record)]
    (toFullScholarship "t0" "Src" "j0" c10Record)
    (toFullScholarship "t0" "Src" "j0" c10Record) "t1" "Src" "j1" c10Record (by decide)
  ⟨h.1, h.2.1, h.2.2.2.1, h.2.2.2.2.2⟩

theorem parseDecimal_nonneg (cs : List Char) (q : ℚ) (h : parseDecimal cs = some q) :
    0 ≤ q := by
  simp only [parseDecimal] at h
  by_cases hcond : cs.takeWhile isAsciiDigit = [] ∧
      (fracPart (cs.dropWhile isAsciiDigit)).1 = []
  · rw [if_pos hcond] at h
    cases h
  · rw [if_neg hcond, Option.some_inj] at h
    subst h
    positivity

theorem parse_tail_nonneg (cs1 : List Char) :
    (jsNumOrZero (if "Infinity".data.isPrefixOf cs1 then
        (if (false : Bool) then JsNumber.negInf else JsNumber.posInf)
      else
        match parseDecimal cs1 with
        | none => JsNumber.nan
        | some q => JsNumber.num (if (false : Bool) then -q else q))).isNonneg = true := by
  split
  · rfl
  · cases hp : parseDecimal cs1 with
    | none => rfl
    | some q =>
      have hq := parseDecimal_nonneg cs1 q hp
      simp [jsNumOrZero, JsNumber.isNonneg, hq]

theorem jsNumOrZero_nonneg_of_no_minus (t : String) (h : startsWithMinus t = false) :
    (jsNumOrZero (jsParseFloat t)).isNonneg = true := by
  unfold startsWithMinus at h
  unfold jsParseFloat
  cases hcs : t.data.dropWhile jsWhitespace with
  | nil => decide
  | cons c cs2 =>
    rw [hcs] at h
    have hc : ¬ c = '-' := by simpa using h
    by_cases hplus : c = '+'
    · subst hplus
      simp only [parseSign, if_neg (by decide : ¬ ('+' : Char) = '-'), if_pos rfl]
      exact parse_tail_nonneg cs2
    · simp only [parseSign, if_neg hc, if_neg hplus]
      exact parse_tail_nonneg (c :: cs2)

/-- **C8 (amended).**  For every input string, the amount-cleaning pipeline
(`parseFloat(cleanAmount(text)) || 0`) never throws (it is total) and
always yields a number, never `NaN`, defaulting to `0` when nothing
parseable remains after cleaning.  The yielded number is non-negative
whenever the cleaned amount text does not begin with a minus sign;
`cleanAmount` strips currency symbols, commas, quotes and prose but not a
leading `-`, which is how a negative value can survive. -/
theorem parsedAwardAmount_spec (s : String) :
    parsedAwardAmount s ≠ JsNumber.nan ∧
    (jsParseFloat (cleanAmount s) = JsNumber.nan →
      parsedAwardAmount s = JsNumber.num 0) ∧
    (startsWithMinus (cleanAmount s) = false →
      (parsedAwardAmount s).isNonneg = true) := by
  refine ⟨?_, ?_, ?_⟩
  · unfold parsedAwardAmount
    cases hx : jsParseFloat (cleanAmount s) <;> simp [jsNumOrZero]
  · intro hn
    unfold parsedAwardAmount
    rw [hn]
    rfl
  · intro h
    exact jsNumOrZero_nonneg_of_no_minus _ h

/-- Witness for C8 (amended): a currency-formatted amount is never `NaN`
and cleans to a non-negative parse, and a prose-only amount defaults
to 0. -/
theorem parsedAwardAmount_spec_witness :
    parsedAwardAmount "$5,000" ≠ JsNumber.nan ∧
    (parsedAwardAmount "$5,000").isNonneg = true ∧
    parsedAwardAmount "varies" = JsNumber.num 0 :=
  have h1 := parsedAwardAmount_spec "$5,000"
  have h2 := parsedAwardAmount_spec "varies"
  ⟨h1.1, h1.2.2 (by decide), h2.2.1 (by decide)⟩

/-- Counterexample for C8 as stated: the pipeline is not non-negative for
every input — `cleanAmount` leaves a leading minus sign in place, so the
amount string `"-500"` parses to the negative number `-500`. -/
theorem parseDecimal_500 : parseDecimal (['5', '0', '0'] : List Char) = some 500 := by
  have h3 : digitsToNat ['5', '0', '0'] = 500 := by decide
  simp only [parseDecimal,
    show List.takeWhile isAsciiDigit ['5', '0', '0'] = ['5', '0', '0'] from by decide,
    show List.dropWhile isAsciiDigit ['5', '0', '0'] = ([] : List Char) from by decide, h3]
  rw [if_neg (by simp)]
  norm_num [fracPart, expPart, digitsToNat]

theorem jsParseFloat_neg500 : jsParseFloat "-500" = JsNumber.num (-500) := by
  simp only [jsParseFloat,
    show List.dropWhile jsWhitespace ("-500" : String).data = ['-', '5', '0', '0'] from by decide,
    show parseSign ['-', '5', '0', '0'] = (true, ['5', '0', '0']) from by decide]
  rw [if_neg (by decide), parseDecimal_500]
  norm_num

theorem parsedAwardAmount_negative_counterexample :
    cleanAmount "-500" = "-500" ∧
    parsedAwardAmount "-500" = JsNumber.num (-500) ∧
    (parsedAwardAmount "-500").isNonneg = false := by
  have hclean : cleanAmount "-500" = "-500" := by decide
  have hpf : parsedAwardAmount "-500" = JsNumber.num (-500) := by
    unfold parsedAwardAmount
    rw [hclean, jsParseFloat_neg500]
    rfl
  refine ⟨hclean, hpf, ?_⟩
  rw [hpf]
  show decide ((0 : ℚ) ≤ -500) = false
  rw [decide_eq_false_iff_not]
  norm_num

end ScholarshipScraper
